import Mathlib

/-!
Verification of the slideshow compositor in `backend/api/video_generator.py`.

The development shallowly embeds the timeline scheduler, the pairwise
crossfade fold, the per-slide construction loop of `generate_video`, the
text-transition and image-effect dispatch (`apply_text_transition`,
`apply_image_effect`), the vertical-position resolution and the audio phase.
Python floats are modelled as exact rationals (`ℚ`), pixel coordinates as
integers (`ℤ`), and fallible operations as explicit success/failure inputs.
-/

namespace Slideshow

/-- Line 37: seconds for crossfades and text fades. -/
def TRANSITION_DURATION : ℚ := 3/10

/-- Lines 39-49: the text transition catalog. -/
def TEXT_TRANSITIONS : List String :=
  ["fade", "slide_left", "slide_right", "slide_top", "slide_bottom",
   "zoom", "typewriter", "glitch", "rotate"]

/-- Lines 51-63: the image effect catalog. -/
def IMAGE_EFFECTS : List String :=
  ["depth_zoom", "ken_burns", "film_grain", "ripple", "light_pulse",
   "parallax_pan", "color_tint_shift", "wave_scan", "parallax_slide",
   "tilted_perspective", "depth_swing"]

/-! ## Timeline scheduler (lines 528-545) -/

/-- Helper for the start-time loop: the running value `s` is the last
appended start time; each remaining duration `d` contributes the next
start `s + d - TRANSITION_DURATION`. -/
def startTimesFrom (s : ℚ) : List ℚ → List ℚ
  | [] => [s]
  | d :: ds => s :: startTimesFrom (s + d - TRANSITION_DURATION) ds

/-- Lines 528-535: `start_times = [0]`, then for each duration in
`slide_durations[:-1]` append `start_times[-1] + dur - TRANSITION_DURATION`. -/
def start_times (slide_durations : List ℚ) : List ℚ :=
  startTimesFrom 0 slide_durations.dropLast

/-- Lines 538-541: each text start time is the image start time plus
`TRANSITION_DURATION`. -/
def text_start_times (slide_durations : List ℚ) : List ℚ :=
  (start_times slide_durations).map (fun s => s + TRANSITION_DURATION)

/-! ## Crossfade fold (lines 185-189 and 522-526) -/

/-- Lines 185-189: `apply_image_transition` composites two clips with a
crossfade; the result's duration is
`clip1.duration + clip2.duration - duration`.  Clips are modelled by their
durations here. -/
def apply_image_transition (d1 d2 : ℚ) : ℚ :=
  d1 + d2 - TRANSITION_DURATION

/-- Lines 522-526: the base track starts as the first image clip and each
further clip is folded in through `apply_image_transition`; this is the
resulting duration. -/
def base_track_duration : List ℚ → ℚ
  | [] => 0
  | d :: ds => ds.foldl apply_image_transition d

/-! ## Scheduler lemmas -/

lemma startTimesFrom_length (l : List ℚ) (s : ℚ) :
    (startTimesFrom s l).length = l.length + 1 := by
  induction l generalizing s with
  | nil => rfl
  | cons d ds ih => simp [startTimesFrom, ih]

lemma startTimesFrom_get? (l : List ℚ) (s : ℚ) (i : ℕ) (hi : i ≤ l.length) :
    (startTimesFrom s l).get? i =
      some (s + (l.take i).sum - i * TRANSITION_DURATION) := by
  induction l generalizing s i with
  | nil =>
      have h0 : i = 0 := Nat.le_zero.mp hi
      subst h0
      simp [startTimesFrom]
  | cons d ds ih =>
      cases i with
      | zero => simp [startTimesFrom]
      | succ n =>
          have hn : n ≤ ds.length := Nat.succ_le_succ_iff.mp hi
          rw [show startTimesFrom s (d :: ds)
                = s :: startTimesFrom (s + d - TRANSITION_DURATION) ds from rfl]
          rw [List.get?_cons_succ, ih (s + d - TRANSITION_DURATION) n hn]
          congr 1
          push_cast
          simp [List.take, List.sum_cons]
          ring

lemma start_times_get? (ds : List ℚ) (i : ℕ) (hi : i ≤ ds.dropLast.length) :
    (start_times ds).get? i =
      some ((ds.dropLast.take i).sum - i * TRANSITION_DURATION) := by
  rw [start_times, startTimesFrom_get? _ 0 i hi]
  congr 1
  ring

/-- C1: for every ordered list of per-slide durations and the fixed
crossfade length `τ = TRANSITION_DURATION = 0.3`, the scheduler assigns
image start times `s₀ = 0` and `sᵢ₊₁ = sᵢ + dᵢ - τ`, text start times
`tᵢ = sᵢ + τ`, and on durations `[5, 5]` produces image starts
`[0, 4.7]` and text starts `[0.3, 5.0]`. -/
theorem scheduler_start_times_spec (ds : List ℚ) (i : ℕ) (si di : ℚ)
    (h1 : i + 1 < ds.length)
    (h2 : (start_times ds).get? i = some si)
    (h3 : ds.get? i = some di) :
    (start_times ds).get? 0 = some 0 ∧
    (start_times ds).get? (i + 1) = some (si + di - TRANSITION_DURATION) ∧
    text_start_times ds = (start_times ds).map (fun s => s + TRANSITION_DURATION) ∧
    start_times [5, 5] = [0, 47/10] ∧
    text_start_times [5, 5] = [3/10, 5] := by
  have hlen : ds.dropLast.length = ds.length - 1 := ds.length_dropLast
  have hi1 : i + 1 ≤ ds.dropLast.length := by omega
  have hi0 : i ≤ ds.dropLast.length := by omega
  refine ⟨?_, ?_, rfl, ?_, ?_⟩
  · rw [start_times_get? ds 0 (Nat.zero_le _)]
    simp
  · have hsi := start_times_get? ds i hi0
    rw [h2] at hsi
    have hsi' : si = (ds.dropLast.take i).sum - i * TRANSITION_DURATION :=
      Option.some.inj hsi
    have hdrop : ds.dropLast.get? i = some di := by
      rw [List.dropLast_eq_take, List.get?_take (by omega)]
      exact h3
    have hsum : (ds.dropLast.take (i + 1)).sum = (ds.dropLast.take i).sum + di := by
      have hlt : i < ds.dropLast.length := by omega
      have hgd : ds.dropLast[i] = di := by
        have h' : ds.dropLast[i]? = some di := by
          rw [← List.get?_eq_getElem?]
          exact hdrop
        rw [List.getElem?_eq_getElem hlt] at h'
        exact Option.some.inj h'
      rw [List.sum_take_succ _ _ hlt, hgd]
    rw [start_times_get? ds (i + 1) hi1, hsum, hsi']
    congr 1
    push_cast
    ring
  · norm_num [start_times, startTimesFrom, TRANSITION_DURATION, List.dropLast]
  · norm_num [text_start_times, start_times, startTimesFrom, TRANSITION_DURATION,
      List.dropLast]

/-- Witness for `scheduler_start_times_spec` with durations `[5, 5]` at
`i = 0`. -/
theorem scheduler_start_times_spec_witness :
    (0 + 1 < ([5, 5] : List ℚ).length) ∧
    (start_times [5, 5]).get? 1 = some (0 + 5 - TRANSITION_DURATION) := by
  refine ⟨by norm_num, ?_⟩
  have h := scheduler_start_times_spec [5, 5] 0 0 5 (by norm_num)
    (by norm_num [start_times, startTimesFrom, List.dropLast])
    (by norm_num)
  exact h.2.1

/-! ## C2: base track duration -/

lemma foldl_crossfade (l : List ℚ) (a : ℚ) :
    l.foldl apply_image_transition a =
      a + l.sum - l.length * TRANSITION_DURATION := by
  induction l generalizing a with
  | nil => simp
  | cons d ds ih =>
      rw [List.foldl_cons, ih]
      simp only [apply_image_transition, List.sum_cons, List.length_cons]
      push_cast
      ring

/-- C2: for `n ≥ 1` surviving slide durations, folding the image clips
pairwise through the crossfade (each composite lasting the sum of the two
parts minus `τ`) yields a base track of duration exactly
`Σ dᵢ - (n - 1) * τ`, hence within the `1e-6` tolerance. -/
theorem base_track_duration_spec (d : ℚ) (ds : List ℚ) :
    base_track_duration (d :: ds) =
      (d :: ds).sum - (((d :: ds).length - 1 : ℕ) : ℚ) * TRANSITION_DURATION ∧
    |base_track_duration (d :: ds) -
      ((d :: ds).sum - (((d :: ds).length - 1 : ℕ) : ℚ) * TRANSITION_DURATION)| ≤
      1/1000000 := by
  have h : base_track_duration (d :: ds) =
      (d :: ds).sum - (((d :: ds).length - 1 : ℕ) : ℚ) * TRANSITION_DURATION := by
    rw [show base_track_duration (d :: ds) = ds.foldl apply_image_transition d from rfl,
      foldl_crossfade]
    simp only [List.sum_cons, List.length_cons, Nat.add_sub_cancel]
  exact ⟨h, by rw [h]; simp⟩

/-! ## Per-slide construction loop of `generate_video` (lines 451-517) -/

/-- Line 472: `txt_duration = max(slide_duration - 2 * TRANSITION_DURATION, 0.1)`,
applied uniformly to every slide. -/
def txt_duration (slide_duration : ℚ) : ℚ :=
  max (slide_duration - 2 * TRANSITION_DURATION) (1/10)

/-- Line 454: `durations[i] if durations and i < len(durations) else
duration_per_slide`. -/
def slide_dur (durations : List ℚ) (duration_per_slide : ℚ) (i : ℕ) : ℚ :=
  (durations.get? i).getD duration_per_slide

/-- The `darkening` argument of `generate_video`: absent, a scalar, or a
per-slide list. -/
inductive Darkening where
  | absent
  | scalar (v : ℚ)
  | perSlide (vs : List ℚ)
deriving DecidableEq

/-- Lines 495-497: `darkening[i] if isinstance(darkening, list) and
i < len(darkening) else (darkening if isinstance(darkening, (float, int))
else 1.0)`.  A list shorter than the slide index yields the default `1.0`. -/
def darken_value (darkening : Darkening) (i : ℕ) : ℚ :=
  match darkening with
  | Darkening.perSlide vs => (vs.get? i).getD 1
  | Darkening.scalar v => v
  | Darkening.absent => 1

/-- The three accumulators of the slide loop: `text_clips` holds
`(slide index, text clip duration)`, `image_clips` holds
`(slide index, darken factor)`, `slide_durations` the durations of slides
whose image processing succeeded. -/
structure SlideState where
  text_clips : List (ℕ × ℚ)
  image_clips : List (ℕ × ℚ)
  slide_durations : List ℚ
deriving DecidableEq

/-- Lines 451-517, body for slide `i`: `textOk i` is whether `TextClip`
creation succeeds, `imageOk i` whether image processing succeeds.  A text
failure skips the whole slide; an image failure happens after the text clip
was already appended, so the text clip stays while image and duration are
skipped. -/
def slide_step (textOk imageOk : ℕ → Bool) (durations : List ℚ)
    (duration_per_slide : ℚ) (darkening : Darkening)
    (st : SlideState) (i : ℕ) : SlideState :=
  if textOk i then
    let st1 : SlideState :=
      { st with text_clips :=
          st.text_clips ++ [(i, txt_duration (slide_dur durations duration_per_slide i))] }
    if imageOk i then
      { st1 with
          image_clips := st1.image_clips ++ [(i, darken_value darkening i)],
          slide_durations :=
            st1.slide_durations ++ [slide_dur durations duration_per_slide i] }
    else st1
  else st

/-- Lines 451-517: the loop `for i, text in enumerate(texts)` over `n`
slides, starting from empty accumulators. -/
def build_slides (textOk imageOk : ℕ → Bool) (durations : List ℚ)
    (duration_per_slide : ℚ) (darkening : Darkening) (n : ℕ) : SlideState :=
  (List.range n).foldl (slide_step textOk imageOk durations duration_per_slide darkening)
    ⟨[], [], []⟩

/-- Lines 559-562: text overlays are built by `zip(text_clips,
text_start_times)`; pairs beyond the shorter list are dropped. -/
def text_overlays (st : SlideState) : List ((ℕ × ℚ) × ℚ) :=
  st.text_clips.zip (text_start_times st.slide_durations)

lemma build_slides_succ (textOk imageOk : ℕ → Bool) (durations : List ℚ)
    (dps : ℚ) (dk : Darkening) (n : ℕ) :
    build_slides textOk imageOk durations dps dk (n + 1) =
      slide_step textOk imageOk durations dps dk
        (build_slides textOk imageOk durations dps dk n) n := by
  rw [build_slides, List.range_succ, List.foldl_append]
  rfl

/-! ## C3: skip-and-continue on per-slide failure -/

/-- C3 evaluation: with three slides whose texts all succeed and only the
middle slide's image processing failing, the loop keeps all three text
clips, keeps exactly the image layers and durations of slides 0 and 2,
raises nothing (`image_clips` is nonempty, so line 519's `ValueError` is not
hit), and the composited overlays pair the texts of slides 0 and 1 — not 0
and 2 — with the two scheduled start times, contradicting the specified
"exactly the 2 slides A and C" outcome. -/
theorem skip_and_continue_divergence :
    (build_slides (fun _ => true) (fun i => i != 1) [] 4 Darkening.absent 3).text_clips.map
        Prod.fst = [0, 1, 2] ∧
    (build_slides (fun _ => true) (fun i => i != 1) [] 4 Darkening.absent 3).image_clips.map
        Prod.fst = [0, 2] ∧
    (build_slides (fun _ => true) (fun i => i != 1) [] 4 Darkening.absent 3).slide_durations
        = [4, 4] ∧
    (build_slides (fun _ => true) (fun i => i != 1) [] 4 Darkening.absent 3).image_clips ≠ [] ∧
    (text_overlays (build_slides (fun _ => true) (fun i => i != 1) [] 4 Darkening.absent 3)).map
        (fun p => p.1.1) = [0, 1] := by
  norm_num [build_slides, List.range_succ, slide_step, text_overlays, text_start_times,
    start_times, startTimesFrom, slide_dur, txt_duration, darken_value,
    TRANSITION_DURATION, List.dropLast]
  simp

/-! ## C5: on-screen text duration -/

/-- C5 counterexample: with two slides of duration 5, the last slide's text
clip also gets `max(5 - 2 * 0.3, 0.1) = 4.4`; the claimed last-slide value
`5 - 0.3 = 4.7` is not produced. -/
theorem last_slide_text_duration_counterexample :
    (build_slides (fun _ => true) (fun _ => true) [5, 5] 4 Darkening.absent 2).text_clips
      = [(0, 44/10), (1, 44/10)] ∧
    (44/10 : ℚ) ≠ 5 - TRANSITION_DURATION := by
  norm_num [build_slides, List.range_succ, slide_step, slide_dur, txt_duration,
    darken_value, TRANSITION_DURATION, max_def]

/-- C5 amended: every slide — the last one included — gets the on-screen
text duration `max(slideDuration - 2τ, 0.1)`. -/
theorem text_duration_uniform (textOk imageOk : ℕ → Bool) (durations : List ℚ)
    (dps : ℚ) (dk : Darkening) (n i : ℕ) (d : ℚ)
    (h : (i, d) ∈ (build_slides textOk imageOk durations dps dk n).text_clips) :
    d = max (slide_dur durations dps i - 2 * TRANSITION_DURATION) (1/10) := by
  induction n with
  | zero => simp [build_slides] at h
  | succ m ih =>
      rw [build_slides_succ] at h
      cases htx : textOk m with
      | false =>
          rw [slide_step, if_neg (by simp [htx])] at h
          exact ih h
      | true =>
          rw [slide_step, if_pos (by simp [htx])] at h
          cases him : imageOk m with
          | false =>
              rw [if_neg (by simp [him])] at h
              simp only [List.mem_append, List.mem_singleton, Prod.mk.injEq] at h
              rcases h with h | ⟨rfl, rfl⟩
              · exact ih h
              · rfl
          | true =>
              rw [if_pos (by simp [him])] at h
              simp only [List.mem_append, List.mem_singleton, Prod.mk.injEq] at h
              rcases h with h | ⟨rfl, rfl⟩
              · exact ih h
              · rfl

/-- Witness for `text_duration_uniform`: the last of two slides with
durations `[5, 5]`. -/
theorem text_duration_uniform_witness :
    ((1 : ℕ), (44/10 : ℚ)) ∈
      (build_slides (fun _ => true) (fun _ => true) [5, 5] 4 Darkening.absent 2).text_clips ∧
    (44/10 : ℚ) = max (slide_dur [5, 5] 4 1 - 2 * TRANSITION_DURATION) (1/10) := by
  have hmem : ((1 : ℕ), (44/10 : ℚ)) ∈
      (build_slides (fun _ => true) (fun _ => true) [5, 5] 4 Darkening.absent 2).text_clips := by
    norm_num [build_slides, List.range_succ, slide_step, slide_dur, txt_duration,
      darken_value, TRANSITION_DURATION, max_def]
  exact ⟨hmem,
    text_duration_uniform (fun _ => true) (fun _ => true) [5, 5] 4 Darkening.absent 2 1
      (44/10) hmem⟩

/-! ## C7: darken factor resolution -/

lemma mem_image_clips_build (textOk imageOk : ℕ → Bool) (durations : List ℚ)
    (dps : ℚ) (dk : Darkening) (n i : ℕ) (dv : ℚ)
    (h : (i, dv) ∈ (build_slides textOk imageOk durations dps dk n).image_clips) :
    dv = darken_value dk i := by
  induction n with
  | zero => simp [build_slides] at h
  | succ m ih =>
      rw [build_slides_succ] at h
      cases htx : textOk m with
      | false =>
          rw [slide_step, if_neg (by simp [htx])] at h
          exact ih h
      | true =>
          rw [slide_step, if_pos (by simp [htx])] at h
          cases him : imageOk m with
          | false =>
              rw [if_neg (by simp [him])] at h
              exact ih h
          | true =>
              rw [if_pos (by simp [him])] at h
              simp only [List.mem_append, List.mem_singleton, Prod.mk.injEq] at h
              rcases h with h | ⟨rfl, rfl⟩
              · exact ih h
              · rfl

/-- C7 counterexample: scalar darkening works, but with the one-element
list `[0.4]` over two slides the second slide records the default `1.0`,
not the last list value `0.4`. -/
theorem darken_list_short_counterexample :
    (build_slides (fun _ => true) (fun _ => true) [] 4
        (Darkening.perSlide [2/5]) 2).image_clips = [(0, 2/5), (1, 1)] ∧
    (1 : ℚ) ≠ 2/5 := by
  norm_num [build_slides, List.range_succ, slide_step, slide_dur, txt_duration,
    darken_value, TRANSITION_DURATION, max_def]

/-- C7 amended: a scalar darkening is recorded by every surviving slide;
a per-slide list is indexed positionally, and a slide index at or beyond
the end of the list records the default factor `1.0` (the last list value
is not reused). -/
theorem darken_factor_resolution (textOk imageOk : ℕ → Bool) (durations : List ℚ)
    (dps v : ℚ) (vs : List ℚ) (n i : ℕ) (dv : ℚ) :
    ((i, dv) ∈ (build_slides textOk imageOk durations dps
        (Darkening.scalar v) n).image_clips → dv = v) ∧
    ((i, dv) ∈ (build_slides textOk imageOk durations dps
        (Darkening.perSlide vs) n).image_clips →
      (vs.length ≤ i → dv = 1) ∧ ∀ h : i < vs.length, dv = vs.get ⟨i, h⟩) := by
  refine ⟨fun h => mem_image_clips_build _ _ _ _ _ _ _ _ h, fun h => ?_⟩
  have hdv := mem_image_clips_build _ _ _ _ _ _ _ _ h
  constructor
  · intro hle
    rw [hdv, darken_value]
    rw [List.get?_eq_none.mpr hle]
    rfl
  · intro hlt
    rw [hdv, darken_value]
    rw [List.get?_eq_get hlt]
    rfl

/-- Witness for `darken_factor_resolution`: scalar `0.4` on slide 0 and the
short list `[0.4]` on slide 1. -/
theorem darken_factor_resolution_witness :
    (((0 : ℕ), (2/5 : ℚ)) ∈ (build_slides (fun _ => true) (fun _ => true) [] 4
        (Darkening.scalar (2/5)) 1).image_clips ∧ (2/5 : ℚ) = 2/5) ∧
    (((1 : ℕ), (1 : ℚ)) ∈ (build_slides (fun _ => true) (fun _ => true) [] 4
        (Darkening.perSlide [2/5]) 2).image_clips ∧
      ([2/5] : List ℚ).length ≤ 1 ∧ (1 : ℚ) = 1) := by
  have h1 : ((0 : ℕ), (2/5 : ℚ)) ∈ (build_slides (fun _ => true) (fun _ => true) [] 4
      (Darkening.scalar (2/5)) 1).image_clips := by
    norm_num [build_slides, List.range_succ, slide_step, slide_dur, txt_duration,
      darken_value, TRANSITION_DURATION, max_def]
  have h2 : ((1 : ℕ), (1 : ℚ)) ∈ (build_slides (fun _ => true) (fun _ => true) [] 4
      (Darkening.perSlide [2/5]) 2).image_clips := by
    norm_num [build_slides, List.range_succ, slide_step, slide_dur, txt_duration,
      darken_value, TRANSITION_DURATION, max_def]
  refine ⟨⟨h1, (darken_factor_resolution (fun _ => true) (fun _ => true) [] 4 (2/5)
    [2/5] 1 0 (2/5)).1 h1⟩, ⟨h2, by norm_num,
    ((darken_factor_resolution (fun _ => true) (fun _ => true) [] 4 (2/5)
      [2/5] 2 1 1).2 h2).1 (by norm_num)⟩⟩

/-! ## C6: audio phase (lines 567-594) -/

/-- Outcome of the audio section of `generate_video`. -/
inductive AudioOutcome where
  | fatal
  | withAudio
  | withoutAudio
deriving DecidableEq

/-- Lines 567-594: `music_path = Path(music_path).resolve()` raises
`TypeError` when the argument is `None` (`path_given = false`), and the
pre-check `if not music_path.exists(): raise FileNotFoundError(...)` on
line 570 raises when the file is missing — both happen before the
`try/except` that starts at line 573, so they propagate out of
`generate_video`.  Failures inside the `try` (`loop_ok = false`, e.g. an
unreadable file discovered by `seamless_audio_loop`) are caught and only a
diagnostic is printed, so the render proceeds without an audio track. -/
def audio_phase (path_given path_exists loop_ok : Bool) : AudioOutcome :=
  if !path_given then AudioOutcome.fatal
  else if !path_exists then AudioOutcome.fatal
  else if loop_ok then AudioOutcome.withAudio
  else AudioOutcome.withoutAudio

/-- C6 evaluation: an absent (`None`) music path and a nonexistent music
path both make `generate_video` raise — the audio error is not absorbed —
while only failures occurring inside the `try` block degrade to a
no-audio render. -/
theorem missing_audio_is_fatal :
    audio_phase false true true = AudioOutcome.fatal ∧
    audio_phase true false true = AudioOutcome.fatal ∧
    audio_phase true true false = AudioOutcome.withoutAudio ∧
    audio_phase true true true = AudioOutcome.withAudio := by
  decide

/-! ## C8: vertical text position (lines 456-466) -/

/-- Python `int()` applied to a rational: truncation toward zero. -/
def pytrunc (q : ℚ) : ℤ :=
  if q < 0 then ⌈q⌉ else ⌊q⌋

/-- Lines 456-466: a percent string that parses to `p` yields
`y = max(40, min(int(H * p / 100), H - 100))` with the text centered
horizontally; an absent, blank or unparsable string (modelled as `none`)
falls back to fully centered (`none`), and nothing is raised. -/
def resolve_text_position (H : ℤ) (parsed : Option ℚ) : Option ℤ :=
  match parsed with
  | some p => some (max 40 (min (pytrunc ((H : ℚ) * p / 100)) (H - 100)))
  | none => none

/-- Modelled from the claim's words, for comparison only: the claim states
the y-coordinate as `clamp(round(H * p / 100), 40, H - 100)` with `round`
instead of the code's `int()` truncation. -/
def resolve_text_position_claim (H : ℤ) (parsed : Option ℚ) : Option ℤ :=
  match parsed with
  | some p => some (max 40 (min (round ((H : ℚ) * p / 100)) (H - 100)))
  | none => none

/-- C8 counterexample: for `p = 10.05` and `H = 1280`,
`H * p / 100 = 128.64`; the code truncates to `128` while the claimed
`round` gives `129`. -/
theorem text_position_round_counterexample :
    resolve_text_position 1280 (some (201/20)) = some 128 ∧
    resolve_text_position_claim 1280 (some (201/20)) = some 129 ∧
    (128 : ℤ) ≠ 129 := by
  refine ⟨?_, ?_, by decide⟩
  · show some (max 40 (min (pytrunc ((1280 : ℚ) * (201/20) / 100)) (1280 - 100))) = some 128
    have h1 : ((1280 : ℚ) * (201/20) / 100) = 3216/25 := by norm_num
    rw [pytrunc, h1, if_neg (by norm_num)]
    norm_num
  · show some (max 40 (min (round ((1280 : ℚ) * (201/20) / 100)) (1280 - 100))) = some 129
    have h1 : ((1280 : ℚ) * (201/20) / 100) = 3216/25 := by norm_num
    rw [h1]
    norm_num [round_eq]

/-- C8 amended: for every percentage that parses to a nonnegative `p` and
every nonnegative frame height `H`, the y-coordinate is
`max(40, min(⌊H * p / 100⌋, H - 100))` — truncation toward zero, which on
the nonnegative inputs of the intended domain is the floor, not `round` —
and an absent/blank/unparsable percentage resolves to centered. -/
theorem text_position_resolution (H : ℤ) (p : ℚ) (hp : 0 ≤ p) (hH : (0 : ℤ) ≤ H) :
    resolve_text_position H (some p) =
      some (max 40 (min ⌊(H : ℚ) * p / 100⌋ (H - 100))) ∧
    resolve_text_position H none = none := by
  refine ⟨?_, rfl⟩
  show some (max 40 (min (pytrunc ((H : ℚ) * p / 100)) (H - 100))) = _
  have hq : (0 : ℚ) ≤ (H : ℚ) * p / 100 := by
    have hH' : (0 : ℚ) ≤ (H : ℚ) := by exact_mod_cast hH
    have := mul_nonneg hH' hp
    positivity
  rw [pytrunc, if_neg (not_lt.mpr hq)]

/-- Witness for `text_position_resolution` at `H = 1280`, `p = 10.05`. -/
theorem text_position_resolution_witness :
    (0 : ℚ) ≤ 201/20 ∧ (0 : ℤ) ≤ 1280 ∧
    resolve_text_position 1280 (some (201/20)) =
      some (max 40 (min ⌊(1280 : ℚ) * (201/20) / 100⌋ (1280 - 100))) := by
  exact ⟨by norm_num, by norm_num,
    (text_position_resolution 1280 (201/20) (by norm_num) (by norm_num)).1⟩

/-! ## Text transitions (lines 65-178) -/

/-- Python `str.startswith`, on the character lists of the strings. -/
def pyStartsWith (s pre : String) : Bool :=
  pre.toList.isPrefixOf s.toList

/-- Python `str.split(sep)` for a one-character separator, on character
lists: `"slide_left_x" ↦ ["slide", "left", "x"]`, `"slide_" ↦ ["slide", ""]`. -/
def splitOnChar (sep : Char) : List Char → List (List Char)
  | [] => [[]]
  | c :: cs =>
      if c = sep then [] :: splitOnChar sep cs
      else match splitOnChar sep cs with
        | [] => [[c]]
        | g :: gs => (c :: g) :: gs

/-- Lines 66-72: a `"center"` coordinate resolves to
`(video_extent - clip_extent) // 2` (Python floor division). -/
def resolveCoord (c : Option ℤ) (v cl : ℤ) : ℤ :=
  match c with
  | some x => x
  | none => (v - cl).fdiv 2

/-- Lines 79-85: `start_map.get(side, (x_final, y_final))`. -/
def slide_start_pos (side : List Char) (clipW clipH xf yf vw vh : ℤ) : ℤ × ℤ :=
  if side = "left".toList then (-clipW, yf)
  else if side = "right".toList then (vw, yf)
  else if side = "top".toList then (xf, -clipH)
  else if side = "bottom".toList then (xf, vh)
  else (xf, yf)

/-- Lines 86-92: `end_map.get(side, (x_final, y_final))`. -/
def slide_end_pos (side : List Char) (clipW clipH xf yf vw vh : ℤ) : ℤ × ℤ :=
  if side = "left".toList then (vw, yf)
  else if side = "right".toList then (-clipW, yf)
  else if side = "top".toList then (xf, vh)
  else if side = "bottom".toList then (xf, -clipH)
  else (xf, yf)

/-- Lines 94-106: the slide transition's position function of elapsed
time. -/
def slide_pos (startP endP : ℤ × ℤ) (xf yf : ℤ) (duration clipDuration : ℚ)
    (t : ℚ) : ℚ × ℚ :=
  if t < duration then
    ((startP.1 : ℚ) + ((xf : ℚ) - (startP.1 : ℚ)) * (t / duration),
     (startP.2 : ℚ) + ((yf : ℚ) - (startP.2 : ℚ)) * (t / duration))
  else if t > clipDuration - duration then
    ((xf : ℚ) + ((endP.1 : ℚ) - (xf : ℚ)) * ((t - (clipDuration - duration)) / duration),
     (yf : ℚ) + ((endP.2 : ℚ) - (yf : ℚ)) * ((t - (clipDuration - duration)) / duration))
  else ((xf : ℚ), (yf : ℚ))

/-- Lines 110-120: the zoom transition's resize factor of elapsed time. -/
def zoom_resize (clipDuration : ℚ) (t : ℚ) : ℚ :=
  if t < 2/5 * clipDuration then 3/10 + 7/10 * (t / (2/5 * clipDuration))
  else if t < 2/5 * clipDuration + 2/5 * clipDuration then 1
  else 3/10 + 7/10 * (max (clipDuration - t) 0 /
    max (clipDuration - 2/5 * clipDuration - 2/5 * clipDuration) (1/100))

/-- Lines 124-139: the typewriter transition's revealed-width fraction of
elapsed time. -/
def typewriter_frac (clipDuration : ℚ) (t : ℚ) : ℚ :=
  if t < 1/2 * clipDuration then t / (1/2 * clipDuration)
  else if t < 1/2 * clipDuration + 7/20 * clipDuration then 1
  else max 0 ((clipDuration - t) /
    max (clipDuration - 1/2 * clipDuration - 7/20 * clipDuration) (1/100))

/-- Lines 152-159: the glitch transition's position.  `random.randint(-10, 10)`
is drawn once per evaluation and the same draw `j` is added to both the x
and the y coordinate. -/
def glitch_pos (xf yf : ℤ) (duration clipDuration : ℚ) (j : ℤ) (t : ℚ) : ℚ × ℚ :=
  if t < duration ∨ t > clipDuration - duration then
    (((xf + j : ℤ) : ℚ), ((yf + j : ℤ) : ℚ))
  else ((xf : ℚ), (yf : ℚ))

/-- Lines 161-176: the rotate transition's angle of elapsed time. -/
def rotate_angle (clipDuration : ℚ) (t : ℚ) : ℚ :=
  if t < 1/5 * clipDuration then -15 + 15 * (t / (1/5 * clipDuration))
  else if t < 1/5 * clipDuration + 3/5 * clipDuration then 0
  else 15 * ((t - (1/5 * clipDuration + 3/5 * clipDuration)) / (1/5 * clipDuration))

/-- The value returned by `apply_text_transition`, one tagged variant per
branch of the function. -/
inductive TextRender where
  | fade (base : ℤ × ℤ) (fadeInDur fadeOutDur : ℚ)
  | slide (posf : ℚ → ℚ × ℚ)
  | zoom (base : ℤ × ℤ) (resizef : ℚ → ℚ) (fadeOutDur : ℚ)
  | typewriter (base : ℤ × ℤ) (revealFrac : ℚ → ℚ)
  | glitch (posf : ℤ → ℚ → ℚ × ℚ)
  | rotate (base : ℤ × ℤ) (rotf : ℚ → ℚ)
  | static (base : ℤ × ℤ)

/-- Lines 65-178: dispatch of `apply_text_transition` on the transition
name.  The clip is modelled by its extents `clipW`/`clipH` (pixels) and its
duration; `final_pos` is modelled as the pair of optional coordinates
(`none` meaning `"center"`). -/
def apply_text_transition (clipW clipH : ℤ) (clipDuration : ℚ) (transition : String)
    (duration : ℚ) (posX posY : Option ℤ) (vw vh : ℤ) : TextRender :=
  let xf := resolveCoord posX vw clipW
  let yf := resolveCoord posY vh clipH
  if transition = "fade" then TextRender.fade (xf, yf) duration duration
  else if pyStartsWith transition "slide_" then
    let side := ((splitOnChar '_' transition.toList).get? 1).getD []
    TextRender.slide (slide_pos (slide_start_pos side clipW clipH xf yf vw vh)
      (slide_end_pos side clipW clipH xf yf vw vh) xf yf duration clipDuration)
  else if transition = "zoom" then
    TextRender.zoom (xf, yf) (zoom_resize clipDuration)
      (max (clipDuration - 2/5 * clipDuration - 2/5 * clipDuration) (1/100))
  else if transition = "typewriter" then
    TextRender.typewriter (xf, yf) (typewriter_frac clipDuration)
  else if transition = "glitch" then
    TextRender.glitch (glitch_pos xf yf duration clipDuration)
  else if transition = "rotate" then
    TextRender.rotate (xf, yf) (rotate_angle clipDuration)
  else TextRender.static (xf, yf)

/-- Observed position of a rendered text layer at elapsed time `t`; `j` is
the random draw consumed by a glitch evaluation.  Branches that keep the
static base position report the base. -/
def TextRender.posAt : TextRender → ℤ → ℚ → ℚ × ℚ
  | TextRender.fade b _ _, _, _ => ((b.1 : ℚ), (b.2 : ℚ))
  | TextRender.slide f, _, t => f t
  | TextRender.zoom b _ _, _, _ => ((b.1 : ℚ), (b.2 : ℚ))
  | TextRender.typewriter b _, _, _ => ((b.1 : ℚ), (b.2 : ℚ))
  | TextRender.glitch f, j, t => f j t
  | TextRender.rotate b _, _, _ => ((b.1 : ℚ), (b.2 : ℚ))
  | TextRender.static b, _, _ => ((b.1 : ℚ), (b.2 : ℚ))

/-! ## Image effects (lines 195-361) -/

/-- A transform attached to an image clip, tagging the closures built in
`apply_image_effect` with their numeric parameters: `zoomLin a b` is the
resize factor `a + b * (t / D)`, `zoomSin a b c` is
`a + b * sin(c * π * t / D)`, `posLin x0 xs y0 ys` is the position
`(x0 + xs * (t / D), y0 + ys * (t / D))`, `posEllipse xa ya` is
`(xa * sin(π * t / D), ya * cos(π * t / D))`, `rotSin amp c` is the angle
`amp * sin(c * π * t / D)`, and the `*Map` tags are the per-frame pixel
filters of the corresponding branches. -/
inductive ImageTransform where
  | zoomLin (a b : ℚ)
  | zoomSin (a b cycles : ℚ)
  | posLin (x0 xs y0 ys : ℚ)
  | posCenter
  | posEllipse (xa ya : ℚ)
  | rotSin (amp cycles : ℚ)
  | grainOverlay (opacity : ℚ)
  | rippleMap
  | pulseMap
  | tintMap
  | waveScanMap
deriving DecidableEq

/-- An image clip entering `apply_image_effect`: its darken factor, its
duration and the transforms already attached. -/
structure ImageClipM where
  darken : ℚ
  duration : ℚ
  transforms : List ImageTransform
deriving DecidableEq

/-- Lines 195-361: dispatch of `apply_image_effect` on the effect name,
appending the branch's transforms; an unmatched name returns the clip
unchanged (line 361). -/
def apply_image_effect (clip : ImageClipM) (effect_name : String) (duration : ℚ)
    (w h : ℤ) : ImageClipM :=
  if effect_name = "parallax_slide" then
    { clip with transforms := clip.transforms ++
        [ImageTransform.zoomLin 1 (1/20),
         ImageTransform.posLin 0 (-(w : ℚ) * (1/10)) (-(h : ℚ) * (1/20)) ((h : ℚ) * (1/20))] }
  else if effect_name = "tilted_perspective" then
    { clip with transforms := clip.transforms ++
        [ImageTransform.zoomLin 1 (1/5),
         ImageTransform.posLin 0 (-(w : ℚ) * (2/25)) 0 (-(h : ℚ) * (1/50)),
         ImageTransform.rotSin 2 2] }
  else if effect_name = "depth_swing" then
    { clip with transforms := clip.transforms ++
        [ImageTransform.zoomSin 1 (3/100) 2, ImageTransform.rotSin 2 2,
         ImageTransform.posCenter] }
  else if effect_name = "depth_zoom" then
    { clip with transforms := clip.transforms ++
        [ImageTransform.zoomLin 1 (3/10),
         ImageTransform.posLin 0 (-(w : ℚ) * (1/20)) 0 (-(h : ℚ) * (1/20))] }
  else if effect_name = "ken_burns" then
    { clip with transforms := clip.transforms ++
        [ImageTransform.zoomLin 1 (1/10),
         ImageTransform.posLin 0 (-(w : ℚ) * (1/50)) 0 (-(h : ℚ) * (1/50))] }
  else if effect_name = "film_grain" then
    { clip with transforms := clip.transforms ++ [ImageTransform.grainOverlay (1/20)] }
  else if effect_name = "ripple" then
    { clip with transforms := clip.transforms ++ [ImageTransform.rippleMap] }
  else if effect_name = "light_pulse" then
    { clip with transforms := clip.transforms ++ [ImageTransform.pulseMap] }
  else if effect_name = "parallax_pan" then
    { clip with transforms := clip.transforms ++
        [ImageTransform.posEllipse (-(w : ℚ) * (1/100)) (-(h : ℚ) * (1/100))] }
  else if effect_name = "color_tint_shift" then
    { clip with transforms := clip.transforms ++ [ImageTransform.tintMap] }
  else if effect_name = "wave_scan" then
    { clip with transforms := clip.transforms ++ [ImageTransform.waveScanMap] }
  else clip

/-! ## C4: fallback policy for unknown names -/

/-- C4 counterexample: `"slide_left_x"` is not in the text-transition
catalog, yet `apply_text_transition` routes every name starting with
`"slide_"` into the slide branch and dispatches on the token after the
first underscore, so the clip starts off screen at `x = -clip.w = -100`
instead of resting at the centered `x = 310`. -/
theorem unknown_transition_counterexample :
    "slide_left_x" ∉ TEXT_TRANSITIONS ∧
    (apply_text_transition 100 50 (44/10) "slide_left_x" (3/10) none none
        720 1280).posAt 0 0 = (-100, 615) ∧
    resolveCoord none 720 100 = 310 ∧
    ((-100 : ℚ), (615 : ℚ)) ≠ ((310 : ℚ), (615 : ℚ)) := by
  refine ⟨by decide, ?_, by decide, by norm_num⟩
  have h1 : ¬ ("slide_left_x" = "fade") := by decide
  have h2 : pyStartsWith "slide_left_x" "slide_" = true := by decide
  have hside : ((splitOnChar '_' "slide_left_x".toList).get? 1).getD []
      = "left".toList := by decide
  have hx : resolveCoord none 720 100 = 310 := by decide
  have hy : resolveCoord none 1280 50 = 615 := by decide
  simp only [apply_text_transition, h1, h2, hside, hx, hy, if_true, ite_false,
    if_false, ite_true]
  norm_num [TextRender.posAt, slide_start_pos, slide_end_pos, slide_pos]

/-- C4 amended: an image-effect name outside the catalog always leaves the
image unchanged, and a transition name outside the catalog that does not
start with `"slide_"` always yields the static resting position with no
animation; but names starting with `"slide_"` (such as `"slide_left_x"`)
enter the slide branch even when they are not in the catalog. -/
theorem unknown_name_identity (tname ename : String) (cw ch : ℤ) (cd dur : ℚ)
    (posX posY : Option ℤ) (vw vh : ℤ) (clip : ImageClipM) (D : ℚ) (w h : ℤ)
    (h1 : tname ∉ TEXT_TRANSITIONS)
    (h2 : pyStartsWith tname "slide_" = false)
    (h3 : ename ∉ IMAGE_EFFECTS) :
    apply_text_transition cw ch cd tname dur posX posY vw vh
      = TextRender.static (resolveCoord posX vw cw, resolveCoord posY vh ch) ∧
    apply_image_effect clip ename D w h = clip := by
  constructor
  · simp only [TEXT_TRANSITIONS, List.mem_cons, List.not_mem_nil, or_false,
      not_or] at h1
    obtain ⟨hfade, -, -, -, -, hzoom, htw, hgl, hrot⟩ := h1
    simp only [apply_text_transition, hfade, h2, hzoom, htw, hgl, hrot,
      Bool.false_eq_true, if_false, ite_false]
  · simp only [IMAGE_EFFECTS, List.mem_cons, List.not_mem_nil, or_false,
      not_or] at h3
    obtain ⟨hdz, hkb, hfg, hrp, hlp, hpp, hct, hws, hps, htp, hds⟩ := h3
    simp only [apply_image_effect, hdz, hkb, hfg, hrp, hlp, hpp, hct, hws,
      hps, htp, hds, if_false, ite_false]

/-- Witness for `unknown_name_identity`: the unknown names `"sparkle"` and
`"sepia"`. -/
theorem unknown_name_identity_witness :
    "sparkle" ∉ TEXT_TRANSITIONS ∧
    pyStartsWith "sparkle" "slide_" = false ∧
    "sepia" ∉ IMAGE_EFFECTS ∧
    (apply_text_transition 100 50 (44/10) "sparkle" (3/10) none none 720 1280
        = TextRender.static (resolveCoord none 720 100, resolveCoord none 1280 50) ∧
      apply_image_effect ⟨1, 4, []⟩ "sepia" 4 720 1280 = ⟨1, 4, []⟩) := by
  exact ⟨by decide, by decide, by decide,
    unknown_name_identity "sparkle" "sepia" 100 50 (44/10) (3/10) none none
      720 1280 ⟨1, 4, []⟩ 4 720 1280 (by decide) (by decide) (by decide)⟩

/-! ## C9: glitch jitter -/

/-- Modelled from the claim's words, for comparison only: the glitch jitter
offsets the resting position by random integers `jx` and `jy` drawn
independently for x and for y during `[0, tau]` and `[D - tau, D]`. -/
def glitch_pos_claim (base : ℤ × ℤ) (jx jy : ℤ) (tau D : ℚ) (t : ℚ) : ℚ × ℚ :=
  if (0 ≤ t ∧ t ≤ tau) ∨ (D - tau ≤ t ∧ t ≤ D) then
    (((base.1 + jx : ℤ) : ℚ), ((base.2 + jy : ℤ) : ℚ))
  else ((base.1 : ℚ), (base.2 : ℚ))

/-- C9 counterexample: under the claim an independent draw `(jx, jy) = (1, 2)`
— both within `[-10, 10]` — puts the text at `(311, 617)` at `t = 0`; the
code adds one shared draw to both coordinates, so no draw ever produces
`(311, 617)` from the resting position `(310, 615)`. -/
theorem glitch_joint_jitter_counterexample :
    glitch_pos_claim (310, 615) 1 2 (3/10) (44/10) 0 = (311, 617) ∧
    ((-10 : ℤ) ≤ 1 ∧ (1 : ℤ) ≤ 10 ∧ (-10 : ℤ) ≤ 2 ∧ (2 : ℤ) ≤ 10) ∧
    ∀ j : ℤ, (apply_text_transition 100 50 (44/10) "glitch" (3/10) none none
        720 1280).posAt j 0 ≠ (311, 617) := by
  refine ⟨?_, by norm_num, ?_⟩
  · rw [glitch_pos_claim, if_pos (Or.inl ⟨le_refl 0, by norm_num⟩)]
    norm_num
  · intro j h
    have h1 : ¬ ("glitch" = "fade") := by decide
    have h2 : pyStartsWith "glitch" "slide_" = false := by decide
    have h3 : ¬ ("glitch" = "zoom") := by decide
    have h4 : ¬ ("glitch" = "typewriter") := by decide
    have h5 : ("glitch" : String) = "glitch" := rfl
    have hx : resolveCoord none 720 100 = 310 := by decide
    have hy : resolveCoord none 1280 50 = 615 := by decide
    rw [apply_text_transition] at h
    simp only [h1, h2, h3, h4, h5, hx, hy, Bool.false_eq_true, if_false,
      ite_false, ite_true, if_true] at h
    rw [TextRender.posAt, glitch_pos, if_pos (Or.inl (by norm_num))] at h
    rw [Prod.mk.injEq] at h
    obtain ⟨ha, hb⟩ := h
    have ha' : (310 : ℤ) + j = 311 := by exact_mod_cast ha
    have hb' : (615 : ℤ) + j = 617 := by exact_mod_cast hb
    omega

/-- C9 amended: at every time strictly inside the entry window `t < τ` or
the exit window `t > D - τ` the glitch position is the resting position
offset by one shared random integer draw `j` added to both x and y; at
every time with `τ ≤ t ≤ D - τ` it is exactly the resting position. -/
theorem glitch_jitter_shared (cw ch : ℤ) (cd dur : ℚ) (posX posY : Option ℤ)
    (vw vh : ℤ) (j : ℤ) (t : ℚ) :
    (t < dur ∨ t > cd - dur →
      (apply_text_transition cw ch cd "glitch" dur posX posY vw vh).posAt j t
        = (((resolveCoord posX vw cw + j : ℤ) : ℚ),
           ((resolveCoord posY vh ch + j : ℤ) : ℚ))) ∧
    (dur ≤ t → t ≤ cd - dur →
      (apply_text_transition cw ch cd "glitch" dur posX posY vw vh).posAt j t
        = ((resolveCoord posX vw cw : ℚ), (resolveCoord posY vh ch : ℚ))) := by
  have h1 : ¬ (("glitch" : String) = "fade") := by decide
  have h2 : pyStartsWith "glitch" "slide_" = false := by decide
  have h3 : ¬ (("glitch" : String) = "zoom") := by decide
  have h4 : ¬ (("glitch" : String) = "typewriter") := by decide
  rw [apply_text_transition]
  simp only [h1, h2, h3, h4, Bool.false_eq_true, if_false, ite_false, ite_true,
    if_true]
  constructor
  · intro hwin
    rw [TextRender.posAt, glitch_pos, if_pos hwin]
  · intro hlo hhi
    rw [TextRender.posAt, glitch_pos,
      if_neg (by push_neg; exact ⟨hlo, hhi⟩)]

/-- Witness for `glitch_jitter_shared`: draw `j = 7` at `t = 0` inside the
entry window. -/
theorem glitch_jitter_shared_witness :
    ((0 : ℚ) < 3/10 ∨ (0 : ℚ) > 44/10 - 3/10) ∧
    (apply_text_transition 100 50 (44/10) "glitch" (3/10) none none
        720 1280).posAt 7 0
      = (((resolveCoord none 720 100 + 7 : ℤ) : ℚ),
         ((resolveCoord none 1280 50 + 7 : ℤ) : ℚ)) := by
  exact ⟨Or.inl (by norm_num),
    (glitch_jitter_shared 100 50 (44/10) (3/10) none none 720 1280 7 0).1
      (Or.inl (by norm_num))⟩

/-! ## C10: pairing of retained text clips with scheduled start times -/

lemma build_slides_single_fail (durations : List ℚ) (dps : ℚ) (dk : Darkening)
    (k : ℕ) (n : ℕ) :
    build_slides (fun _ => true) (fun i => i != k) durations dps dk n =
      ⟨(List.range n).map (fun i => (i, txt_duration (slide_dur durations dps i))),
       ((List.range n).filter (fun i => i != k)).map (fun i => (i, darken_value dk i)),
       ((List.range n).filter (fun i => i != k)).map
         (fun i => slide_dur durations dps i)⟩ := by
  induction n with
  | zero => rfl
  | succ m ih =>
      rw [build_slides_succ, ih, List.range_succ]
      cases hmk : (m != k) with
      | true => simp [slide_step, hmk, List.filter_append]
      | false => simp [slide_step, hmk, List.filter_append]

lemma filter_ne_range (n k : ℕ) (hk : k < n) :
    (List.range n).filter (fun i => i != k)
      = List.range k ++ List.range' (k + 1) (n - (k + 1)) := by
  induction n with
  | zero => exact absurd hk (Nat.not_lt_zero k)
  | succ m ih =>
      rw [List.range_succ, List.filter_append]
      rcases Nat.lt_succ_iff_lt_or_eq.mp hk with hlt | heq
      · rw [ih hlt]
        have hm : (m != k) = true := by simp; omega
        simp only [List.filter_cons, List.filter_nil, hm, if_true]
        rw [List.append_assoc]
        congr 1
        have hsub : m + 1 - (k + 1) = (m - (k + 1)) + 1 := by omega
        rw [hsub, List.range'_concat]
        congr 2
        omega
      · subst heq
        have hm : (k != k) = false := by simp
        simp only [List.filter_cons, List.filter_nil, hm, if_false,
          Bool.false_eq_true, List.append_nil]
        have hself : (List.range k).filter (fun i => i != k) = List.range k :=
          List.filter_eq_self.mpr (fun a ha => by
            simp only [List.mem_range] at ha
            simp
            omega)
        simp [hself]

lemma length_filter_ne_range (n k : ℕ) (hk : k < n) :
    ((List.range n).filter (fun i => i != k)).length = n - 1 := by
  rw [filter_ne_range n k hk]
  simp only [List.length_append, List.length_range, List.length_range']
  omega

lemma get?_filter_ne_range (n k j : ℕ) (h1 : k ≤ j) (h2 : j < n - 1) :
    ((List.range n).filter (fun i => i != k)).get? j = some (j + 1) := by
  have hk : k < n := by omega
  rw [filter_ne_range n k hk]
  rw [List.get?_append_right (by simpa using h1)]
  rw [List.get?_range' _ _ (show j - (List.range k).length < n - (k + 1) by
    simp only [List.length_range]; omega)]
  simp only [List.length_range, one_mul]
  congr 1
  omega

lemma zip_get?_of_get? {α β : Type} : ∀ (l1 : List α) (l2 : List β) (i : ℕ)
    (a : α) (b : β), l1.get? i = some a → l2.get? i = some b →
    (l1.zip l2).get? i = some (a, b)
  | [], _, i, _, _, ha, _ => by simp at ha
  | _ :: _, [], i, _, _, _, hb => by simp at hb
  | x :: xs, y :: ys, 0, a, b, ha, hb => by
      rw [List.get?_cons_zero] at ha hb
      simp [List.zip_cons_cons, Option.some.inj ha, Option.some.inj hb]
  | x :: xs, y :: ys, i + 1, a, b, ha, hb => by
      rw [List.get?_cons_succ] at ha hb
      simpa [List.zip_cons_cons] using zip_get?_of_get? xs ys i a b ha hb

/-- C10 counterexample: four slides of duration 5, slide 1's image fails.
The overlay at position 2 pairs the text of slide 2 — a slide after the
failed one — with start time `9.4 + τ = 9.7`, and `9.4` is the scheduled
start of surviving image index 2, which is original slide 3: a later
slide.  The only surviving image of an earlier slide (slide 0) starts at
`0`, and `9.7 ≠ 0 + τ`, so the text is not anchored to an earlier slide's
image; the retained text of slide 3 is dropped (only 3 overlays). -/
theorem text_overlay_shift_counterexample :
    (text_overlays (build_slides (fun _ => true) (fun i => i != 1) [5, 5, 5, 5] 4
        Darkening.absent 4)).get? 2 = some ((2, 44/10), 97/10) ∧
    (build_slides (fun _ => true) (fun i => i != 1) [5, 5, 5, 5] 4
        Darkening.absent 4).image_clips.map Prod.fst = [0, 2, 3] ∧
    start_times (build_slides (fun _ => true) (fun i => i != 1) [5, 5, 5, 5] 4
        Darkening.absent 4).slide_durations = [0, 47/10, 94/10] ∧
    (97/10 : ℚ) = 94/10 + TRANSITION_DURATION ∧
    (97/10 : ℚ) ≠ 0 + TRANSITION_DURATION ∧
    (text_overlays (build_slides (fun _ => true) (fun i => i != 1) [5, 5, 5, 5] 4
        Darkening.absent 4)).length = 3 := by
  norm_num [build_slides, List.range_succ, slide_step, slide_dur, txt_duration,
    darken_value, text_overlays, text_start_times, start_times, startTimesFrom,
    TRANSITION_DURATION, List.dropLast, max_def]

/-- C10 amended: when every text clip succeeds and exactly slide `k`'s
image processing fails (`k < n`, `n ≥ 2`), the failed slide's text clip is
retained while its image layer and duration are not; overlays pair the
`j`-th retained text clip with the `j`-th scheduled start time; the last
retained text clip is silently dropped (`n - 1` overlays for `n` text
clips); and for `k ≤ j < n - 1` the `j`-th scheduled start is the start of
original slide `j + 1`'s image — a later slide, not an earlier one. -/
theorem text_overlay_shift (durations : List ℚ) (dps : ℚ) (dk : Darkening)
    (n k : ℕ) (hk : k < n) (hn : 2 ≤ n) :
    (build_slides (fun _ => true) (fun i => i != k) durations dps dk n).text_clips.map
        Prod.fst = List.range n ∧
    (build_slides (fun _ => true) (fun i => i != k) durations dps dk n).image_clips.map
        Prod.fst = (List.range n).filter (fun i => i != k) ∧
    (build_slides (fun _ => true) (fun i => i != k) durations dps dk
        n).slide_durations.length = n - 1 ∧
    (∀ (j : ℕ) (a : ℕ × ℚ) (s : ℚ),
      (build_slides (fun _ => true) (fun i => i != k) durations dps dk n).text_clips.get? j
          = some a →
      (text_start_times (build_slides (fun _ => true) (fun i => i != k) durations dps dk
          n).slide_durations).get? j = some s →
      (text_overlays (build_slides (fun _ => true) (fun i => i != k) durations dps dk
          n)).get? j = some (a, s)) ∧
    (text_overlays (build_slides (fun _ => true) (fun i => i != k) durations dps dk
        n)).length = n - 1 ∧
    (∀ j : ℕ, k ≤ j → j < n - 1 →
      ((build_slides (fun _ => true) (fun i => i != k) durations dps dk n).image_clips.map
          Prod.fst).get? j = some (j + 1)) := by
  have hb := build_slides_single_fail durations dps dk k n
  have htext : (build_slides (fun _ => true) (fun i => i != k) durations dps dk
      n).text_clips = (List.range n).map
        (fun i => (i, txt_duration (slide_dur durations dps i))) := by rw [hb]
  have himg : (build_slides (fun _ => true) (fun i => i != k) durations dps dk
      n).image_clips = ((List.range n).filter (fun i => i != k)).map
        (fun i => (i, darken_value dk i)) := by rw [hb]
  have hsd : (build_slides (fun _ => true) (fun i => i != k) durations dps dk
      n).slide_durations = ((List.range n).filter (fun i => i != k)).map
        (fun i => slide_dur durations dps i) := by rw [hb]
  have hsdlen : (build_slides (fun _ => true) (fun i => i != k) durations dps dk
      n).slide_durations.length = n - 1 := by
    rw [hsd, List.length_map]
    exact length_filter_ne_range n k hk
  refine ⟨?_, ?_, hsdlen, ?_, ?_, ?_⟩
  · rw [htext, List.map_map]
    have hc : (Prod.fst ∘ fun i : ℕ =>
        (i, txt_duration (slide_dur durations dps i))) = id := rfl
    rw [hc, List.map_id]
  · rw [himg, List.map_map]
    have hc : (Prod.fst ∘ fun i : ℕ => (i, darken_value dk i)) = id := rfl
    rw [hc, List.map_id]
  · intro j a s ha hs
    rw [text_overlays]
    exact zip_get?_of_get? _ _ j a s ha hs
  · rw [text_overlays, List.length_zip, htext]
    have hlen2 : (text_start_times (build_slides (fun _ => true) (fun i => i != k)
        durations dps dk n).slide_durations).length = n - 1 := by
      rw [text_start_times, List.length_map, start_times, startTimesFrom_length,
        List.length_dropLast, hsdlen]
      omega
    rw [hlen2, List.length_map, List.length_range]
    omega
  · intro j hj1 hj2
    rw [himg, List.map_map]
    have hc : (Prod.fst ∘ fun i : ℕ => (i, darken_value dk i)) = id := rfl
    rw [hc, List.map_id]
    exact get?_filter_ne_range n k j hj1 hj2

/-- Witness for `text_overlay_shift`: four slides, slide 1's image fails;
the overlay slot of slide 2's text is the start of slide 3's image. -/
theorem text_overlay_shift_witness :
    (1 < 4 ∧ 2 ≤ 4) ∧
    ((build_slides (fun _ => true) (fun i => i != 1) [5, 5, 5, 5] 4
        Darkening.absent 4).image_clips.map Prod.fst).get? 2 = some 3 := by
  exact ⟨⟨by norm_num, by norm_num⟩,
    (text_overlay_shift [5, 5, 5, 5] 4 Darkening.absent 4 1 (by norm_num)
      (by norm_num)).2.2.2.2.2 2 (by norm_num) (by norm_num)⟩

end Slideshow
